import Mathlib

/-!
Shallow embedding of the `bert_reader` repository's binary decoding core
(`bert_reader.py`, `bert_reader/bert_reader.py`, `bert_reader/tables.py`,
`predefined_values.py`), together with proofs settling the frozen claims.

Byte buffers are modelled as `List Nat` (each element is one byte, `< 256`
where a claim needs it).  Python operations that can raise are modelled with
`Option` (a raised exception is `none`); Python slicing, which never raises,
is modelled by a total function with Python's clamping semantics.
-/

/-- Python slice endpoint resolution: a negative index counts from the end of
the sequence, and both ends are clamped into `[0, n]`. -/
def pyIdx (n : Nat) (i : Int) : Nat :=
  if i < 0 then (i + n).toNat else min i.toNat n

/-- Python slice `l[a:b]`.  Never fails; out-of-range bounds are clamped and
negative bounds count from the end, exactly as in Python. -/
def pySlice (l : List Nat) (a b : Int) : List Nat :=
  (l.take (pyIdx l.length b)).drop (pyIdx l.length a)

/-- Lowercase hexadecimal digit character for `n < 16` (as produced by
Python's `bytes.hex`). -/
def hexDigitChar (n : Nat) : Char :=
  if n < 10 then Char.ofNat (48 + n) else Char.ofNat (87 + n)

/-- The two hex characters of one byte. -/
def byteHexChars (b : Nat) : List Char :=
  [hexDigitChar (b / 16), hexDigitChar (b % 16)]

/-- Characters of `bytes.hex()`: two lowercase hex digits per byte, no
separators. -/
def bytesHexChars : List Nat → List Char
  | [] => []
  | b :: rest => byteHexChars b ++ bytesHexChars rest

/-- Python `bytes.hex()` as used for the raw (`.hex()`) dictionary fields. -/
def pyHex (l : List Nat) : String :=
  String.mk (bytesHexChars l)

/-- Characters of the space-separated hex dump produced by `binary_to_hex`:
`' '.join(a+b for a,b in zip(hex_data[::2], hex_data[1::2]))` pairs the hex
string back into bytes, so the result is the bytes' hex pairs joined by
single spaces. -/
def hexSpacedChars : List Nat → List Char
  | [] => []
  | [b] => byteHexChars b
  | b :: rest => byteHexChars b ++ ' ' :: hexSpacedChars rest

/-- Little-endian byte list to natural number. -/
def leBytesToNat : List Nat → Nat
  | [] => 0
  | b :: rest => b + 256 * leBytesToNat rest

/-- Big-endian byte list to natural number (`int.from_bytes(l, "big")`):
each byte is weighted by `256 ^ (number of bytes after it)`. -/
def beBytesToNat : List Nat → Nat
  | [] => 0
  | b :: rest => b * 256 ^ rest.length + beBytesToNat rest

/-- `k`-byte little-endian serialization of `n mod 256^k`. -/
def natToLeBytes : Nat → Nat → List Nat
  | 0, _ => []
  | k + 1, n => n % 256 :: natToLeBytes k (n / 256)

/-- `k`-byte big-endian serialization (`int.to_bytes(k, "big")` for
`n < 256^k`). -/
def natToBeBytes (k n : Nat) : List Nat :=
  (natToLeBytes k n).reverse

/-- Reinterpretation of a 32-bit pattern as a signed integer, as
`struct.unpack("i", ...)` does. -/
def toSigned32 (n : Nat) : Int :=
  if n < 2 ^ 31 then (n : Int) else (n : Int) - 2 ^ 32

/-- Python `bytes.decode("utf-8")` (strict): decodes a byte list to the list
of its Unicode code points, failing on any ill-formed sequence (invalid lead
or continuation bytes, overlong forms, surrogates, values above U+10FFFF). -/
def utf8Decode : List Nat → Option (List Nat)
  | [] => some []
  | b :: rest =>
    if b < 0x80 then
      (utf8Decode rest).map (fun t => b :: t)
    else if b < 0xC2 then
      none
    else if b < 0xE0 then
      match rest with
      | b1 :: rest1 =>
        if 0x80 ≤ b1 ∧ b1 < 0xC0 then
          (utf8Decode rest1).map (fun t => ((b - 0xC0) * 64 + (b1 - 0x80)) :: t)
        else none
      | [] => none
    else if b < 0xF0 then
      match rest with
      | b1 :: b2 :: rest2 =>
        if ((if b = 0xE0 then 0xA0 else 0x80) ≤ b1 ∧
              b1 < (if b = 0xED then 0xA0 else 0xC0)) ∧
            (0x80 ≤ b2 ∧ b2 < 0xC0) then
          (utf8Decode rest2).map
            (fun t => ((b - 0xE0) * 4096 + (b1 - 0x80) * 64 + (b2 - 0x80)) :: t)
        else none
      | _ => none
    else if b < 0xF5 then
      match rest with
      | b1 :: b2 :: b3 :: rest3 =>
        if ((if b = 0xF0 then 0x90 else 0x80) ≤ b1 ∧
              b1 < (if b = 0xF4 then 0x90 else 0xC0)) ∧
            (0x80 ≤ b2 ∧ b2 < 0xC0) ∧ (0x80 ≤ b3 ∧ b3 < 0xC0) then
          (utf8Decode rest3).map
            (fun t => ((b - 0xF0) * 262144 + (b1 - 0x80) * 4096 +
              (b2 - 0x80) * 64 + (b3 - 0x80)) :: t)
        else none
      | _ => none
    else none

/-- `binary_to_string(binary_data, byte_offset, length)`:
`binary_data[byte_offset:byte_offset+length].decode("utf-8")`.  The slice
silently truncates at the end of the buffer; only the UTF-8 decode can fail
(`UnicodeDecodeError`).  The decoded Python `str` is modelled as its list of
code points. -/
def binary_to_string (l : List Nat) (off len : Nat) : Option (List Nat) :=
  utf8Decode (pySlice l off (off + len))

/-- `binary_to_int(binary_data, byte_offset, length=4)`:
`struct.unpack('i', binary_data[byte_offset:byte_offset+length])[0]`.
`struct` raises unless the slice holds exactly 4 bytes; otherwise the bytes
are read as a signed little-endian 32-bit integer. -/
def binary_to_int (l : List Nat) (off len : Nat) : Option Int :=
  if (pySlice l off (off + len)).length = 4 then
    some (toSigned32 (leBytesToNat (pySlice l off (off + len))))
  else none

/-- `binary_to_byte(binary_data, byte_offset)`:
`struct.unpack('B', binary_data[byte_offset:byte_offset+1])[0]`. -/
def binary_to_byte (l : List Nat) (off : Nat) : Option Nat :=
  if (pySlice l off (off + 1)).length = 1 then
    some ((pySlice l off (off + 1)).headD 0)
  else none

/-- `binary_to_hex(binary_data, byte_offset, length)`: hex of the slice,
re-grouped into space-separated byte pairs.  Never fails; a slice reaching
past the buffer end is silently truncated. -/
def binary_to_hex (l : List Nat) (off len : Int) : String :=
  String.mk (hexSpacedChars (pySlice l off (off + len)))

/-- CPython's `uuid.UUID.bytes_le`: given the 16 big-endian bytes of the
UUID's integer, reverses bytes `[0:4]`, `[4:6]` and `[6:8]` and keeps
`[8:16]` as they are. -/
def pyBytesSwapLe (bs : List Nat) : List Nat :=
  (bs.take 4).reverse ++ ((bs.drop 4).take 2).reverse ++
    ((bs.drop 6).take 2).reverse ++ bs.drop 8

/-- `uuid.UUID(bytes=b).bytes_le` for a 16-byte `b`: the constructor stores
`int.from_bytes(b, "big")`, `.bytes` re-serializes that integer big-endian,
and `.bytes_le` swaps the three little-endian fields. -/
def uuidBytesLe (b : List Nat) : List Nat :=
  pyBytesSwapLe (natToBeBytes 16 (beBytesToNat b))

/-- `binary_to_guid(binary_data, byte_offset, length)`:
`uuid.UUID(bytes=binary_data[byte_offset:byte_offset+length]).bytes_le.hex()`.
The `uuid.UUID` constructor raises `ValueError` unless given exactly 16
bytes. -/
def binary_to_guid (l : List Nat) (off len : Nat) : Option String :=
  if (pySlice l off (off + len)).length = 16 then
    some (pyHex (uuidBytesLe (pySlice l off (off + len))))
  else none

/-! ## tables.py: severity rendering and the table classes -/

/-- The `severity_text` list of `GenericErrorStatusBlock.get_severity`. -/
def severity_text : List String :=
  ["Recoverable", "Fatal", "Correctable", "None"]

/-- Python list indexing `l[i]`: a negative index counts from the end; an
index outside `[-len, len)` raises `IndexError`. -/
def pyListIndex (l : List String) (i : Int) : Option String :=
  if 0 ≤ i then l.get? i.toNat
  else if 0 ≤ i + l.length then l.get? (i + l.length).toNat
  else none

/-- The body of `get_severity` after `binary_to_int`: if the severity is
below `len(severity_text) = 4` it is rendered by (possibly negative) list
indexing as `f'{severity_text[severity]}({severity})'`, otherwise as
`f'unknown({severity})'`. -/
def severity_render (sev : Int) : Option String :=
  if sev < 4 then
    (pyListIndex severity_text sev).map
      (fun t => t ++ "(" ++ toString sev ++ ")")
  else some ("unknown(" ++ toString sev ++ ")")

/-- `GenericErrorStatusBlock.get_severity(data, start, length=4)`. -/
def get_severity (l : List Nat) (start : Nat) : Option String :=
  (binary_to_int l start 4).bind severity_render

/-- The decoded dictionary built by `get_bert_table` (root `bert_reader.py`)
and by `Bert.__init__` (`tables.py`); field names, including the `lenght`
misspelling, follow the source. -/
structure BertTable where
  header_signature : List Nat
  lenght : Int
  revision : Nat
  checksum : Nat
  oem_id : List Nat
  oem_revision : Int
  creator_id : List Nat
  creator_revision : Int
  boot_error_region_length : Int
  boot_error_region : String
  hex : String
deriving DecidableEq

/-- `get_bert_table(bert_table_binary)` (root `bert_reader.py` lines 47-61)
and the dictionary of `Bert.__init__` (`tables.py` lines 78-93): the same
fixed-offset reads in the same order.  Any raising read aborts the decode.
Neither code path calls `check_header_signature`. -/
def get_bert_table (d : List Nat) : Option BertTable := do
  let sig ← binary_to_string d 0 4
  let len ← binary_to_int d 4 4
  let rev ← binary_to_byte d 8
  let chk ← binary_to_byte d 9
  let oem ← binary_to_string d 10 6
  let oemrev ← binary_to_int d 24 4
  let cid ← binary_to_string d 28 4
  let crev ← binary_to_int d 32 4
  let berl ← binary_to_int d 36 4
  pure { header_signature := sig, lenght := len, revision := rev,
         checksum := chk, oem_id := oem, oem_revision := oemrev,
         creator_id := cid, creator_revision := crev,
         boot_error_region_length := berl,
         boot_error_region := binary_to_hex d 40 8,
         hex := binary_to_hex d 0 48 }

/-- `GenericTable.check_header_signature(signature)` (`tables.py` lines
57-64): raises (`none`) when the decoded `header_signature` differs from the
expected tag. -/
def check_header_signature (t : BertTable) (signature : List Nat) : Option Unit :=
  if t.header_signature ≠ signature then none else some ()

/-- The dictionary built by `Hest.__init__` (`tables.py` lines 95-114). -/
structure HestTable where
  header_signature : List Nat
  lenght : Int
  revision : Nat
  checksum : Nat
  oem_id : List Nat
  oem_revision : Int
  creator_id : List Nat
  creator_revision : Int
  error_source_count : Int
  error_source_structure : List Nat
  hex : String
deriving DecidableEq

/-- `Hest.__init__` decode (`tables.py` lines 99-114); like `Bert.__init__`
it never calls `check_header_signature`. -/
def hest_init (d : List Nat) : Option HestTable := do
  let sig ← binary_to_string d 0 4
  let len ← binary_to_int d 4 4
  let rev ← binary_to_byte d 8
  let chk ← binary_to_byte d 9
  let oem ← binary_to_string d 10 6
  let oemrev ← binary_to_int d 24 4
  let cid ← binary_to_string d 28 4
  let crev ← binary_to_int d 32 4
  let esc ← binary_to_int d 36 4
  pure { header_signature := sig, lenght := len, revision := rev,
         checksum := chk, oem_id := oem, oem_revision := oemrev,
         creator_id := cid, creator_revision := crev,
         error_source_count := esc,
         error_source_structure := pySlice d 40 d.length,
         hex := binary_to_hex d 0 d.length }

/-- The dictionary built by `GenericErrorStatusBlock.__init__` (`tables.py`
lines 146-156). -/
structure GesbBlock where
  block_status : String
  raw_data_offset : String
  raw_data_length : Int
  data_length : Int
  error_severity : String
  hex : String
deriving DecidableEq

/-- `GenericErrorStatusBlock.__init__` decode (`tables.py` lines 149-156):
a raising read — including an `IndexError` inside `get_severity` — aborts
the construction. -/
def generic_error_status_block (d : List Nat) : Option GesbBlock := do
  let rdl ← binary_to_int d 8 4
  let dl ← binary_to_int d 12 4
  let sev ← get_severity d 16
  pure { block_status := pyHex (pySlice d 0 4),
         raw_data_offset := binary_to_hex d 4 4,
         raw_data_length := rdl, data_length := dl,
         error_severity := sev,
         hex := binary_to_hex d 0 d.length }

/-! ## Root `bert_reader.py`: `get_bert_table_data` (GESB + entry loop) -/

/-- One element of `bert_table_data["generic_error_data_entry"]` as built by
the root `get_bert_table_data` (lines 79-90); field names, including the
`error_data_lenght` misspelling, follow the source. -/
structure DataEntry where
  section_type : String
  error_severity : Int
  revision : String
  validation_bits : String
  flags : String
  error_data_lenght : Int
  fru_id : String
  fru_text : List Nat
  timestamp : String
  generic_error_data : String
deriving DecidableEq

/-- One iteration of the root entry loop over the current remaining slice
`d` (lines 79-90): the GUID read, the two `binary_to_int` reads and the
`fru_text` decode can raise; the `.hex()` and `binary_to_hex` reads cannot,
and `binary_to_hex d 72 error_data_lenght` silently truncates when the
declared payload extends past the end of `d`. -/
def decode_data_entry (d : List Nat) : Option DataEntry := do
  let st ← binary_to_guid d 0 16
  let sev ← binary_to_int d 16 4
  let edl ← binary_to_int d 24 4
  let ft ← binary_to_string d 44 20
  pure { section_type := st, error_severity := sev,
         revision := pyHex (pySlice d 20 22),
         validation_bits := pyHex (pySlice d 22 23),
         flags := pyHex (pySlice d 23 24),
         error_data_lenght := edl,
         fru_id := pyHex (pySlice d 28 44),
         fru_text := ft,
         timestamp := pyHex (pySlice d 64 72),
         generic_error_data := binary_to_hex d 72 edl }

/-- The root entry loop `for i in range(0, n)` (lines 78-92): the counter
`n` fixes the number of iterations; after each entry the remaining slice is
cut to `d[72 + error_data_lenght:]`.  A raising read inside any iteration
aborts the whole decode (the partially built list is lost). -/
def entries_loop : Nat → List Nat → Option (List DataEntry)
  | 0, _ => some []
  | n + 1, d => do
    let e ← decode_data_entry d
    let rest ← entries_loop n (pySlice d (72 + e.error_data_lenght) d.length)
    pure (e :: rest)

/-- The dictionary built by the root `get_bert_table_data` (lines 66-93). -/
structure BertTableData where
  block_status : String
  raw_data_offset : String
  raw_data_lenght : String
  data_lenght : Int
  error_severity : Int
  generic_error_data_entries : Int
  generic_error_data_entry : List DataEntry
deriving DecidableEq

/-- Root `get_bert_table_data(bert_table_data_binary)` (lines 66-93).  Note
that both `error_severity` (line 73) and the loop counter
`generic_error_data_entries` (line 74) are read from the same offset 16 of
the GESB header; the loop runs that many times over the slice `d[20:]`. -/
def get_bert_table_data (d : List Nat) : Option BertTableData := do
  let dl ← binary_to_int d 12 4
  let sev ← binary_to_int d 16 4
  let n ← binary_to_int d 16 4
  let entries ← entries_loop n.toNat (pySlice d 20 d.length)
  pure { block_status := pyHex (pySlice d 0 4),
         raw_data_offset := pyHex (pySlice d 4 8),
         raw_data_lenght := pyHex (pySlice d 8 12),
         data_lenght := dl, error_severity := sev,
         generic_error_data_entries := n,
         generic_error_data_entry := entries }

/-! ## predefined_values.py: the Section Type Registry -/

/-- One registry row: the section name and the ordered
`error_record_reference` field descriptors `(name, (offset, length, kind))`,
with the decode kind kept as the string the source stores (it is used for a
`globals()` name lookup). -/
structure SectionSchema where
  name : String
  error_record_reference : List (String × Nat × Nat × String)
deriving DecidableEq

/-- `section_types` from the root `predefined_values.py`: GUID canonical hex
string → schema.  Only "Firmware Error Record Reference" has a non-empty
descriptor list. -/
def section_types : List (String × SectionSchema) :=
  [("9876ccad47b44bdbb65e16f193c4f3db", ⟨"Processor Generic", []⟩),
   ("dc3ea0b0a1444797b95b53fa242b6e1d", ⟨"Processor Specific - IA32/X64", []⟩),
   ("e429faf13cb711d4bca70080c73c8881", ⟨"Processor Specific - IPF", []⟩),
   ("e19e3d16bc1111e49caac2051d5d46b0", ⟨"Processor Specific - ARM", []⟩),
   ("a5bc11146f644edeb8633e83ed7c83b1", ⟨"Platform Memory", []⟩),
   ("d995e954bbc1430fad91b44dcb3c6f35", ⟨"PCIe", []⟩),
   ("81212a9609ed499694718d729c8e69ed",
     ⟨"Firmware Error Record Reference",
      [("firmware_error_record_type", 0, 1, "byte"),
       ("reserved", 1, 7, "hex"),
       ("record_identifier", 8, 8, "hex")]⟩),
   ("c57539633b844095bf78eddad3f9c9dd", ⟨"PCI/PCI-X Bus", []⟩),
   ("eb5e4685ca664769b6a226068b001326", ⟨"DMAr Generic", []⟩),
   ("71761d3732b245cda7d0b0fedd93e8cf",
     ⟨"Intel® VT for Directed I/O specific DMAr section", []⟩),
   ("036f84e17f37428ca79e575fdfaa84ec", ⟨"IOMMU specific DMAr section", []⟩)]

/-- Python dict subscription `m[k]`: the value when the key is present,
`KeyError` (`none`) otherwise. -/
def pyDictGet (m : List (String × SectionSchema)) (k : String) :
    Option SectionSchema :=
  (m.find? (fun p => p.1 == k)).map (fun p => p.2)

/-! ## Package `bert_reader/bert_reader.py` -/

/-- A value a per-field decoder would produce (an integer or a string). -/
inductive PyVal where
  | vInt (n : Int) : PyVal
  | vStr (s : String) : PyVal
deriving DecidableEq

/-- The `globals()[value[2]]` lookup in `get_bert_table_data_entry`
(`bert_reader/bert_reader.py` line 79): the module's global namespace
contains `argparse`, `os`, `struct`, `uuid`, `sys`, `Bert`,
`predefined_values` and the module's own functions, but no function named
`byte`, `hex`, `string`, `int` or `guid` — the conversion helpers are
neither defined nor imported in that module.  The lookup therefore raises
`KeyError` for every decode-kind string stored in the registry, so it is
modelled as failing for every name. -/
def pkg_globals_lookup (_kind : String) :
    Option (List Nat → Nat → Nat → Option PyVal) :=
  none

/-- `get_bert_table_data_entry(section_type, data_entry)`
(`bert_reader/bert_reader.py` lines 71-87).  The `try/except` that once fell
back to `"Unknown"` is commented out in the source, so an absent GUID key
raises (`KeyError`); the registry is modelled by the root
`predefined_values.py` (the packaged `bert_reader/predefined_values.py` has
no `section_types` at all, which would make the lookup raise
`AttributeError` even sooner). -/
def get_bert_table_data_entry (sectionType : String) (data_entry : List Nat) :
    Option (List (String × PyVal)) := do
  let schema ← pyDictGet section_types sectionType
  schema.error_record_reference.foldlM
    (fun acc fld => do
      let f ← pkg_globals_lookup fld.2.2.2
      let v ← f data_entry fld.2.1 fld.2.2.1
      pure (acc ++ [(fld.1, v)]))
    []

/-- One element of `generic_error_data_entry` as built by the package
`get_bert_table_data` (lines 48-61); this copy spells `error_data_length`
correctly. -/
structure DataEntryPkg where
  section_type : String
  error_severity : Int
  revision : String
  validation_bits : String
  flags : String
  error_data_length : Int
  fru_id : String
  fru_text : List Nat
  timestamp : String
  generic_error_data : String
deriving DecidableEq

/-- One iteration of the package entry loop over the remaining slice `d`
(lines 48-61), identical to the root loop body up to the field spelling. -/
def pkg_decode_data_entry (d : List Nat) : Option DataEntryPkg := do
  let st ← binary_to_guid d 0 16
  let sev ← binary_to_int d 16 4
  let edl ← binary_to_int d 24 4
  let ft ← binary_to_string d 44 20
  pure { section_type := st, error_severity := sev,
         revision := pyHex (pySlice d 20 22),
         validation_bits := pyHex (pySlice d 22 23),
         flags := pyHex (pySlice d 23 24),
         error_data_length := edl,
         fru_id := pyHex (pySlice d 28 44),
         fru_text := ft,
         timestamp := pyHex (pySlice d 64 72),
         generic_error_data := binary_to_hex d 72 edl }

/-- The package entry loop (lines 47-68).  Besides collecting the entries it
computes `get_bert_table_data_entry(section_type, d[72:error_data_length])`
each iteration — note the slice end is `error_data_length`, not
`72 + error_data_length` — and stores the result under the single top-level
key `decoded_data_entry`, overwritten on every iteration; the second result
component is that last value (`none` when the loop body never ran). -/
def pkg_entries_loop :
    Nat → List Nat → Option (List DataEntryPkg × Option (List (String × PyVal)))
  | 0, _ => some ([], none)
  | n + 1, d => do
    let e ← pkg_decode_data_entry d
    let dec ← get_bert_table_data_entry e.section_type
      (pySlice d 72 e.error_data_length)
    let res ← pkg_entries_loop n (pySlice d (72 + e.error_data_length) d.length)
    pure (e :: res.1, some (res.2.getD dec))

/-- The dictionary built by the package `get_bert_table_data` (lines 31-69);
`decoded_data_entry` is `none` when the key was never assigned. -/
structure BertTableDataPkg where
  block_status : String
  raw_data_offset : String
  raw_data_lenght : String
  data_lenght : Int
  error_severity : Int
  generic_error_data_entries : Int
  generic_error_data_entry : List DataEntryPkg
  decoded_data_entry : Option (List (String × PyVal))
deriving DecidableEq

/-- Package `get_bert_table_data(bert_table_data_binary)`
(`bert_reader/bert_reader.py` lines 31-69).  As in the root copy, both
`error_severity` and the loop counter `generic_error_data_entries` are read
from offset 16. -/
def get_bert_table_data_pkg (d : List Nat) : Option BertTableDataPkg := do
  let dl ← binary_to_int d 12 4
  let sev ← binary_to_int d 16 4
  let n ← binary_to_int d 16 4
  let res ← pkg_entries_loop n.toNat (pySlice d 20 d.length)
  pure { block_status := pyHex (pySlice d 0 4),
         raw_data_offset := pyHex (pySlice d 4 8),
         raw_data_lenght := pyHex (pySlice d 8 12),
         data_lenght := dl, error_severity := sev,
         generic_error_data_entries := n,
         generic_error_data_entry := res.1,
         decoded_data_entry := res.2 }

/-! ## Spec-side reference definitions

These follow the wording of the specification (§4.1, §6, §8) rather than the
source; they exist only to be compared with the source embeddings above. -/

/-- Spec §4.1 `read_int32(offset)`: signed 32-bit little-endian integer,
`OutOfBounds` when `offset+4` exceeds the buffer size. -/
def spec_read_int32 (l : List Nat) (off : Nat) : Option Int :=
  if off + 4 ≤ l.length then
    some (toSigned32 (leBytesToNat ((l.drop off).take 4)))
  else none

/-- Spec §4.1 `read_byte(offset)`: unsigned 8-bit integer, `OutOfBounds`
when `offset+1` exceeds the buffer size. -/
def spec_read_byte (l : List Nat) (off : Nat) : Option Nat :=
  l.get? off

/-- Spec §4.1 `read_ascii(offset, length)`: UTF-8 string of known length,
`OutOfBounds` when `offset+length` exceeds the buffer size. -/
def spec_read_ascii (l : List Nat) (off len : Nat) : Option (List Nat) :=
  if off + len ≤ l.length then utf8Decode ((l.drop off).take len)
  else none

/-- Spec §4.1 `read_hex(offset, length)`: lowercase hex, byte-pair grouped,
on-wire order, `OutOfBounds` when `offset+length` exceeds the buffer. -/
def spec_read_hex (l : List Nat) (off len : Nat) : Option String :=
  if off + len ≤ l.length then
    some (String.mk (hexSpacedChars ((l.drop off).take len)))
  else none

/-- Spec §8: "the standard GUID byte-swap rule (first 4 bytes reversed, next
2 reversed, next 2 reversed, last 8 bytes unchanged)". -/
def specGuidSwap (b : List Nat) : List Nat :=
  (b.take 4).reverse ++ ((b.drop 4).take 2).reverse ++
    ((b.drop 6).take 2).reverse ++ b.drop 8

/-- Spec §8: the canonical GUID string of 16 wire-order bytes — the hex
string, without separators, of the byte-swapped bytes. -/
def specGuidCanonical (b : List Nat) : String :=
  pyHex (specGuidSwap b)

/-- BERT decoding per the spec's §6 byte-layout table, field by field in the
table's order. -/
def specBertDecode (d : List Nat) : Option BertTable := do
  let sig ← spec_read_ascii d 0 4
  let len ← spec_read_int32 d 4
  let rev ← spec_read_byte d 8
  let chk ← spec_read_byte d 9
  let oem ← spec_read_ascii d 10 6
  let oemrev ← spec_read_int32 d 24
  let cid ← spec_read_ascii d 28 4
  let crev ← spec_read_int32 d 32
  let berl ← spec_read_int32 d 36
  let ber ← spec_read_hex d 40 8
  let hx ← spec_read_hex d 0 48
  pure { header_signature := sig, lenght := len, revision := rev,
         checksum := chk, oem_id := oem, oem_revision := oemrev,
         creator_id := cid, creator_revision := crev,
         boot_error_region_length := berl,
         boot_error_region := ber, hex := hx }

/-! ## Concrete test buffers -/

/-- The 48-byte BERT buffer of spec §8: signature "BERT", length 48,
revision 1, checksum 0, oem_id "TEST00", oem_revision 1, creator_id "TEST",
creator_revision 1, boot_error_region_length 8, boot_error_region 8 bytes of
`0xAA` (bytes 16-23, which no decoded field covers, are zero). -/
def bertBuf48 : List Nat :=
  [66, 69, 82, 84, 48, 0, 0, 0, 1, 0, 84, 69, 83, 84, 48, 48,
   0, 0, 0, 0, 0, 0, 0, 0, 1, 0, 0, 0, 84, 69, 83, 84,
   1, 0, 0, 0, 8, 0, 0, 0, 170, 170, 170, 170, 170, 170, 170, 170]

/-- `bertBuf48` with the signature bytes replaced by "XXXX". -/
def badSigBuf48 : List Nat :=
  [88, 88, 88, 88, 48, 0, 0, 0, 1, 0, 84, 69, 83, 84, 48, 48,
   0, 0, 0, 0, 0, 0, 0, 0, 1, 0, 0, 0, 84, 69, 83, 84,
   1, 0, 0, 0, 8, 0, 0, 0, 170, 170, 170, 170, 170, 170, 170, 170]

/-- A well-formed 72-byte Generic Error Data Entry with all-zero
section-type GUID, severity 1 and `error_data_length` 0. -/
def zeroEntry72 : List Nat :=
  List.replicate 16 0 ++ [1, 0, 0, 0] ++ [0, 0] ++ [0] ++ [0] ++
    [0, 0, 0, 0] ++ List.replicate 16 0 ++ List.replicate 20 0 ++
    List.replicate 8 0

/-- C1's failing input: a 92-byte GESB buffer whose header declares
`data_length = 72` (offset 12) and `error_severity = 0` (offset 16),
followed by a 72-byte entry region holding exactly one entry. -/
def gesbBufC1 : List Nat :=
  [0, 0, 0, 0, 0, 0, 0, 0, 0, 0, 0, 0, 72, 0, 0, 0, 0, 0, 0, 0] ++
    zeroEntry72

/-- C2's failing input: a 100-byte GESB buffer whose header declares
`data_length = 92` and severity 1, followed by an 80-byte region holding a
72-byte entry header that declares `error_data_length = 20` but only 8
payload bytes (of `0xAA`). -/
def gesbBufC2 : List Nat :=
  [0, 0, 0, 0, 0, 0, 0, 0, 0, 0, 0, 0, 92, 0, 0, 0, 1, 0, 0, 0] ++
    (List.replicate 16 0 ++ [1, 0, 0, 0] ++ [0, 0] ++ [0] ++ [0] ++
      [20, 0, 0, 0] ++ List.replicate 16 0 ++ List.replicate 20 0 ++
      List.replicate 8 0) ++
    [170, 170, 170, 170, 170, 170, 170, 170]

/-- The 16 wire-order bytes of the Firmware Error Record Reference GUID
(canonical form `81212a9609ed499694718d729c8e69ed`). -/
def ferrWireGuid : List Nat :=
  [150, 42, 33, 129, 237, 9, 150, 73, 148, 113, 141, 114, 156, 142, 105, 237]

/-- C5's input: a 112-byte GESB buffer, `data_length = 92`, severity 1, one
entry whose GUID is the Firmware Error Record Reference and whose header
declares `error_data_length = 20`, followed by its 20-byte payload. -/
def gesbBufC5 : List Nat :=
  [0, 0, 0, 0, 0, 0, 0, 0, 0, 0, 0, 0, 92, 0, 0, 0, 1, 0, 0, 0] ++
    ferrWireGuid ++ [1, 0, 0, 0] ++ [0, 0] ++ [0] ++ [0] ++
    [20, 0, 0, 0] ++ List.replicate 16 0 ++ List.replicate 20 0 ++
    List.replicate 8 0 ++
    [5, 0, 0, 0, 0, 0, 0, 0, 17, 34, 51, 68, 85, 102, 119, 136, 1, 2, 3, 4]

/-- C9's input: a 92-byte GESB buffer, `data_length = 72`, severity 1, one
well-formed entry whose section-type GUID is all-zero (absent from the
registry). -/
def gesbBufC9 : List Nat :=
  [0, 0, 0, 0, 0, 0, 0, 0, 0, 0, 0, 0, 72, 0, 0, 0, 1, 0, 0, 0] ++
    zeroEntry72

/-- A 20-byte GESB header whose `error_severity` word (offset 16) holds 7. -/
def gesbHdrSev7 : List Nat :=
  List.replicate 16 0 ++ [7, 0, 0, 0]

/-- A 20-byte GESB header whose `error_severity` word holds -1. -/
def gesbHdrSevNeg1 : List Nat :=
  List.replicate 16 0 ++ [255, 255, 255, 255]

/-- A 20-byte GESB header whose `error_severity` word holds -5. -/
def gesbHdrSevNeg5 : List Nat :=
  List.replicate 16 0 ++ [251, 255, 255, 255]

/-! ## Helper lemmas -/

/-- Python slicing with nonnegative bounds is drop-then-take. -/
theorem pySliceCore (l : List Nat) (a b : Nat) :
    pySlice l (a : Int) (b : Int) = (l.drop a).take (b - a) := by
  unfold pySlice pyIdx
  rw [if_neg (by omega), if_neg (by omega)]
  rw [Int.toNat_ofNat, Int.toNat_ofNat]
  have tb : l.take (min b l.length) = l.take b := by
    rcases Nat.le_total b l.length with h | h
    · rw [Nat.min_eq_left h]
    · rw [Nat.min_eq_right h, List.take_length,
        List.take_of_length_le h]
  rw [tb]
  have da : (l.take b).drop (min a l.length) = (l.take b).drop a := by
    rcases Nat.le_total a l.length with h | h
    · rw [Nat.min_eq_left h]
    · rw [Nat.min_eq_right h]
      rw [List.drop_eq_nil_of_le (by simp),
        List.drop_eq_nil_of_le (by simp; omega)]
  rw [da, List.drop_take]

/-- The slice pattern `l[a : a+c]` every accessor uses. -/
theorem pySlice_add (l : List Nat) (a c : Nat) :
    pySlice l (a : Int) ((a : Int) + (c : Int)) = (l.drop a).take c := by
  have h1 : ((a : Int) + (c : Int)) = ((a + c : Nat) : Int) := by
    push_cast
    ring
  rw [h1, pySliceCore]
  congr 1
  omega

/-- The slice pattern `l[a : a+1]` of `binary_to_byte`. -/
theorem pySlice_add_one (l : List Nat) (a : Nat) :
    pySlice l (a : Int) ((a : Int) + 1) = (l.drop a).take 1 := by
  have h1 : ((a : Int) + 1) = ((a + 1 : Nat) : Int) := by
    push_cast
    ring
  rw [h1, pySliceCore]
  congr 1
  omega

/-- Little-endian serialization inverts little-endian byte evaluation. -/
theorem leBytesToNat_roundtrip :
    ∀ (l : List Nat), (∀ x ∈ l, x < 256) →
      natToLeBytes l.length (leBytesToNat l) = l := by
  intro l
  induction l with
  | nil => intro _; rfl
  | cons b t ih =>
    intro h
    have hb : b < 256 := h b (by simp)
    have ht : ∀ x ∈ t, x < 256 := fun x hx => h x (by simp [hx])
    simp only [List.length_cons, leBytesToNat, natToLeBytes]
    congr 1
    · omega
    · have h1 : (b + 256 * leBytesToNat t) / 256 = leBytesToNat t := by omega
      rw [h1, ih ht]

/-- Little-endian evaluation of an appended list. -/
theorem leBytesToNat_append (xs ys : List Nat) :
    leBytesToNat (xs ++ ys) =
      leBytesToNat xs + 256 ^ xs.length * leBytesToNat ys := by
  induction xs with
  | nil => simp [leBytesToNat]
  | cons b t ih =>
    simp only [List.cons_append, leBytesToNat, List.length_cons]
    rw [show t.append ys = t ++ ys from rfl, ih]
    ring

/-- Big-endian evaluation is little-endian evaluation of the reverse. -/
theorem beBytesToNat_eq_le_reverse (l : List Nat) :
    beBytesToNat l = leBytesToNat l.reverse := by
  induction l with
  | nil => rfl
  | cons b t ih =>
    simp only [beBytesToNat, List.reverse_cons, leBytesToNat_append, ih,
      leBytesToNat, List.length_reverse]
    ring

/-- `int.to_bytes(k, "big")` inverts `int.from_bytes(l, "big")` for a
`k`-byte list of bytes. -/
theorem natToBeBytes_roundtrip (l : List Nat) (h : ∀ x ∈ l, x < 256) :
    natToBeBytes l.length (beBytesToNat l) = l := by
  unfold natToBeBytes
  rw [beBytesToNat_eq_le_reverse,
    show l.length = l.reverse.length from (List.length_reverse l).symm,
    leBytesToNat_roundtrip l.reverse
      (fun x hx => h x (List.mem_reverse.mp hx)),
    List.reverse_reverse]

/-- CPython's route through the 128-bit integer (`uuid.UUID(bytes=b)`
followed by `.bytes_le`) equals the spec's direct byte-swap rule. -/
theorem uuidBytesLe_eq_swap (l : List Nat) (h16 : l.length = 16)
    (h : ∀ x ∈ l, x < 256) : uuidBytesLe l = specGuidSwap l := by
  unfold uuidBytesLe
  rw [show (16 : Nat) = l.length from h16.symm, natToBeBytes_roundtrip l h]
  rfl

/-- `hexDigitChar` is injective on digits. -/
theorem hexDigitChar_inj :
    ∀ a b : Fin 16, hexDigitChar a.val = hexDigitChar b.val → a = b := by
  decide

/-- Two bytes with equal hex digit pairs are equal. -/
theorem hexByte_inj (x y : Nat) (hx : x < 256) (hy : y < 256)
    (h1 : hexDigitChar (x / 16) = hexDigitChar (y / 16))
    (h2 : hexDigitChar (x % 16) = hexDigitChar (y % 16)) : x = y := by
  have d1 := hexDigitChar_inj ⟨x / 16, by omega⟩ ⟨y / 16, by omega⟩ h1
  have d2 := hexDigitChar_inj ⟨x % 16, by omega⟩ ⟨y % 16, by omega⟩ h2
  have e1 : x / 16 = y / 16 := congrArg Fin.val d1
  have e2 : x % 16 = y % 16 := congrArg Fin.val d2
  omega

/-- Hex encoding is injective on byte lists. -/
theorem bytesHexChars_inj :
    ∀ (l1 l2 : List Nat), (∀ x ∈ l1, x < 256) → (∀ x ∈ l2, x < 256) →
      bytesHexChars l1 = bytesHexChars l2 → l1 = l2 := by
  intro l1
  induction l1 with
  | nil =>
    intro l2 _ _ h
    cases l2 with
    | nil => rfl
    | cons b t => simp [bytesHexChars, byteHexChars] at h
  | cons a t ih =>
    intro l2 h1 h2 h
    cases l2 with
    | nil => simp [bytesHexChars, byteHexChars] at h
    | cons b t2 =>
      simp only [bytesHexChars, byteHexChars, List.cons_append,
        List.nil_append, List.cons.injEq] at h
      obtain ⟨e1, e2, e3⟩ := h
      have hab : a = b :=
        hexByte_inj a b (h1 a (by simp)) (h2 b (by simp)) e1 e2
      subst hab
      rw [ih t2 (fun x hx => h1 x (by simp [hx]))
        (fun x hx => h2 x (by simp [hx])) e3]

/-- A list of length 16 is a 16-element literal. -/
theorem list16_destruct (l : List Nat) (h : l.length = 16) :
    ∃ b0 b1 b2 b3 b4 b5 b6 b7 b8 b9 b10 b11 b12 b13 b14 b15,
      l = [b0, b1, b2, b3, b4, b5, b6, b7,
           b8, b9, b10, b11, b12, b13, b14, b15] := by
  rcases l with _ | ⟨b0, l⟩; · simp at h
  rcases l with _ | ⟨b1, l⟩; · simp at h
  rcases l with _ | ⟨b2, l⟩; · simp at h
  rcases l with _ | ⟨b3, l⟩; · simp at h
  rcases l with _ | ⟨b4, l⟩; · simp at h
  rcases l with _ | ⟨b5, l⟩; · simp at h
  rcases l with _ | ⟨b6, l⟩; · simp at h
  rcases l with _ | ⟨b7, l⟩; · simp at h
  rcases l with _ | ⟨b8, l⟩; · simp at h
  rcases l with _ | ⟨b9, l⟩; · simp at h
  rcases l with _ | ⟨b10, l⟩; · simp at h
  rcases l with _ | ⟨b11, l⟩; · simp at h
  rcases l with _ | ⟨b12, l⟩; · simp at h
  rcases l with _ | ⟨b13, l⟩; · simp at h
  rcases l with _ | ⟨b14, l⟩; · simp at h
  rcases l with _ | ⟨b15, l⟩; · simp at h
  have hl : l = [] := by
    have hz : l.length = 0 := by simpa using h
    exact List.length_eq_zero.mp hz
  subst hl
  exact ⟨b0, b1, b2, b3, b4, b5, b6, b7, b8, b9, b10, b11, b12, b13, b14, b15,
    rfl⟩

/-- Every element of the swapped GUID bytes comes from the input. -/
theorem specGuidSwap_subset (l : List Nat) : ∀ x ∈ specGuidSwap l, x ∈ l := by
  intro x hx
  simp only [specGuidSwap, List.mem_append, List.mem_reverse] at hx
  rcases hx with ((h | h) | h) | h
  · exact List.take_subset _ _ h
  · exact List.drop_subset _ _ (List.take_subset _ _ h)
  · exact List.drop_subset _ _ (List.take_subset _ _ h)
  · exact List.drop_subset _ _ h

/-- The GUID byte swap is injective on 16-byte lists. -/
theorem specGuidSwap_inj (l1 l2 : List Nat) (h1 : l1.length = 16)
    (h2 : l2.length = 16) (h : specGuidSwap l1 = specGuidSwap l2) :
    l1 = l2 := by
  obtain ⟨a0, a1, a2, a3, a4, a5, a6, a7, a8, a9, a10, a11, a12, a13, a14,
    a15, rfl⟩ := list16_destruct l1 h1
  obtain ⟨c0, c1, c2, c3, c4, c5, c6, c7, c8, c9, c10, c11, c12, c13, c14,
    c15, rfl⟩ := list16_destruct l2 h2
  simp only [specGuidSwap] at h
  simp at h
  simp_all

/-- `binary_to_guid` agrees with the spec's canonicalization on full
16-byte reads. -/
theorem guid_code_eq_spec (l : List Nat) (h16 : l.length = 16)
    (hb : ∀ x ∈ l, x < 256) :
    binary_to_guid l 0 16 = some (specGuidCanonical l) := by
  unfold binary_to_guid
  rw [pySlice_add l 0 16]
  simp only [List.drop_zero]
  rw [List.take_of_length_le (by omega)]
  rw [if_pos h16]
  unfold specGuidCanonical
  rw [uuidBytesLe_eq_swap l h16 hb]

/-- Canonical GUID strings identify wire GUIDs up to byte equality. -/
theorem guid_canonical_inj (l1 l2 : List Nat) (h1 : l1.length = 16)
    (h2 : l2.length = 16) (hb1 : ∀ x ∈ l1, x < 256)
    (hb2 : ∀ x ∈ l2, x < 256) :
    (specGuidCanonical l1 = specGuidCanonical l2 ↔ l1 = l2) := by
  constructor
  · intro h
    have hd : bytesHexChars (specGuidSwap l1) =
        bytesHexChars (specGuidSwap l2) := congrArg String.data h
    have hsw := bytesHexChars_inj _ _
      (fun x hx => hb1 x (specGuidSwap_subset l1 x hx))
      (fun x hx => hb2 x (specGuidSwap_subset l2 x hx)) hd
    exact specGuidSwap_inj l1 l2 h1 h2 hsw
  · intro h
    rw [h]

/-- Spec `read_ascii` agrees with `binary_to_string` inside the buffer. -/
theorem spec_ascii_eq (l : List Nat) (off len : Nat)
    (h : off + len ≤ l.length) :
    spec_read_ascii l off len = binary_to_string l off len := by
  unfold spec_read_ascii binary_to_string
  rw [if_pos h, pySlice_add]

/-- Spec `read_int32` agrees with `binary_to_int` inside the buffer. -/
theorem spec_int_eq (l : List Nat) (off : Nat) (h : off + 4 ≤ l.length) :
    spec_read_int32 l off = binary_to_int l off 4 := by
  unfold spec_read_int32 binary_to_int
  rw [pySlice_add, if_pos h, if_pos (by simp; omega)]

/-- Spec `read_byte` agrees with `binary_to_byte` inside the buffer. -/
theorem spec_byte_eq (l : List Nat) (off : Nat) (h : off + 1 ≤ l.length) :
    spec_read_byte l off = binary_to_byte l off := by
  unfold spec_read_byte binary_to_byte
  rw [pySlice_add_one]
  rcases hcons : l.drop off with _ | ⟨a, t⟩
  · exfalso
    have hlen := congrArg List.length hcons
    simp at hlen
    omega
  · rw [if_pos (by simp)]
    have hget : l.get? off = some a := by
      have h0 : (l.drop off)[0]? = l[off + 0]? := List.getElem?_drop l off 0
      rw [hcons] at h0
      rw [List.get?_eq_getElem?]
      simpa using h0.symm
    rw [hget]
    rfl

/-- Spec `read_hex` agrees with `binary_to_hex` inside the buffer. -/
theorem spec_hex_eq (l : List Nat) (off len : Nat)
    (h : off + len ≤ l.length) :
    spec_read_hex l off len = some (binary_to_hex l off len) := by
  unfold spec_read_hex binary_to_hex
  rw [if_pos h, pySlice_add]

/-! ## Claim theorems -/

/-- C1: the claim says the GESB entry-framing loop walks the declared
`data_length` region, stopping once fewer than 72 bytes remain, so a region
exactly filling `data_length` yields exactly its entry count with exactly
`data_length` bytes consumed.  The code instead reads the loop count from
offset 16 — the `error_severity` word, not a count and not the region bound.
On `gesbBufC1` the 72-byte region (data_length = 72) holds exactly one
well-formed entry — the code's own entry decoder consumes exactly 72 bytes
for it, and one loop pass over the region returns exactly that one entry —
yet `get_bert_table_data` returns zero entries because the severity word is
zero. -/
theorem c1_entry_loop_counter_read_from_severity_offset :
    (get_bert_table_data gesbBufC1).map
        (fun r => (r.generic_error_data_entry.length, r.data_lenght,
          r.generic_error_data_entries)) = some (0, 72, 0) ∧
    (pySlice gesbBufC1 20 gesbBufC1.length).length = 72 ∧
    (decode_data_entry (pySlice gesbBufC1 20 gesbBufC1.length)).map
        (fun e => 72 + e.error_data_lenght) = some 72 ∧
    (entries_loop 1 (pySlice gesbBufC1 20 gesbBufC1.length)).map
        List.length = some 1 := by
  decide

/-- C2 (counterexample): the claim says an entry whose
`72 + error_data_length` exceeds the remaining region makes decoding fail
with `TruncatedEntry` and never yields a truncated read.  On `gesbBufC2` the
single entry declares `error_data_length = 20` (so needs 92 bytes) while the
region holds only 80; decoding nevertheless succeeds and returns that entry
with its payload silently truncated to the 8 available bytes. -/
theorem c2_overrun_entry_decoded_without_error :
    (get_bert_table_data gesbBufC2).map
      (fun r => r.generic_error_data_entry.map
        (fun e => (e.error_data_lenght, e.generic_error_data))) =
      some [(20, "aa aa aa aa aa aa aa aa")] ∧
    (decode_data_entry (pySlice gesbBufC2 20 gesbBufC2.length)).map
      (fun e => 72 + e.error_data_lenght) = some 92 ∧
    (pySlice gesbBufC2 20 gesbBufC2.length).length = 80 := by
  decide

/-- C2 (amended): the decoder performs no bounds check on
`error_data_length`.  Whenever an entry slice holds the 72-byte header and
its `fru_text` bytes decode, the entry decode succeeds regardless of how far
the declared payload overruns the slice, and the payload hex is the
silent-truncation read `binary_to_hex d 72 error_data_lenght`; there is no
`TruncatedEntry` (or any typed) failure. -/
theorem c2_amended_silent_truncation (d : List Nat) (ft : List Nat)
    (h72 : 72 ≤ d.length) (hft : binary_to_string d 44 20 = some ft) :
    ∃ e, decode_data_entry d = some e ∧
      e.generic_error_data = binary_to_hex d 72 e.error_data_lenght := by
  obtain ⟨g, hg⟩ : ∃ g, binary_to_guid d 0 16 = some g := by
    unfold binary_to_guid
    rw [pySlice_add, if_pos (by simp; omega)]
    exact ⟨_, rfl⟩
  obtain ⟨v1, hv1⟩ : ∃ v, binary_to_int d 16 4 = some v := by
    unfold binary_to_int
    rw [pySlice_add, if_pos (by simp; omega)]
    exact ⟨_, rfl⟩
  obtain ⟨v2, hv2⟩ : ∃ v, binary_to_int d 24 4 = some v := by
    unfold binary_to_int
    rw [pySlice_add, if_pos (by simp; omega)]
    exact ⟨_, rfl⟩
  have hred : decode_data_entry d = some
      { section_type := g, error_severity := v1,
        revision := pyHex (pySlice d 20 22),
        validation_bits := pyHex (pySlice d 22 23),
        flags := pyHex (pySlice d 23 24),
        error_data_lenght := v2,
        fru_id := pyHex (pySlice d 28 44),
        fru_text := ft,
        timestamp := pyHex (pySlice d 64 72),
        generic_error_data := binary_to_hex d 72 v2 } := by
    simp [decode_data_entry, hg, hv1, hv2, hft]
  exact ⟨_, hred, rfl⟩

/-- C2 (amended, witness): the amended statement instantiated on the
overrun entry region of `gesbBufC2`. -/
theorem c2_amended_silent_truncation_witness :
    ∃ e, decode_data_entry (pySlice gesbBufC2 20 gesbBufC2.length) = some e ∧
      e.generic_error_data =
        binary_to_hex (pySlice gesbBufC2 20 gesbBufC2.length) 72
          e.error_data_lenght :=
  c2_amended_silent_truncation (pySlice gesbBufC2 20 gesbBufC2.length)
    (List.replicate 20 0) (by decide) (by decide)

/-- C3: the claim says a buffer whose first 4 bytes are not the expected tag
makes the fixed-header decoder fail with `HeaderMismatch`.  The
`check_header_signature` method does reject a mismatch, but neither
`Bert.__init__` nor `Hest.__init__` (nor root `get_bert_table`) ever calls
it: on `badSigBuf48`, whose signature decodes to "XXXX", both decoders
succeed, although the check would have raised. -/
theorem c3_signature_mismatch_not_rejected :
    (get_bert_table badSigBuf48).map (fun r => r.header_signature) =
      some [88, 88, 88, 88] ∧
    (get_bert_table badSigBuf48).isSome = true ∧
    (get_bert_table badSigBuf48).bind
      (fun r => check_header_signature r [66, 69, 82, 84]) = none ∧
    (hest_init badSigBuf48).isSome = true := by
  decide

/-- C4 (counterexample): the claim says every accessor fails with
`OutOfBounds` when `offset + length` exceeds the buffer and never returns a
silently truncated result.  Reading 4 bytes at offset 0 from the 2-byte
buffer `[0xAA, 0xBB]`, `binary_to_hex` returns the truncated dump "aa bb"
instead of failing, and `binary_to_string` likewise returns the truncated
string. -/
theorem c4_accessors_out_of_bounds_counterexample :
    binary_to_hex [170, 187] 0 4 = "aa bb" ∧
    binary_to_string [65, 66] 0 4 = some [65, 66] := by
  decide

/-- C4 (amended): of the five accessors, `binary_to_int`, `binary_to_byte`
and `binary_to_guid` do fail when the requested bytes extend past the buffer
(their fixed-width unpacking finds too few bytes), while `binary_to_hex` and
`binary_to_string` never fail on out-of-bounds requests: they silently
truncate to the bytes actually available. -/
theorem c4_amended_accessor_behavior :
    (∀ (l : List Nat) (off : Nat), l.length < off + 4 →
      binary_to_int l off 4 = none) ∧
    (∀ (l : List Nat) (off : Nat), l.length < off + 1 →
      binary_to_byte l off = none) ∧
    (∀ (l : List Nat) (off : Nat), l.length < off + 16 →
      binary_to_guid l off 16 = none) ∧
    (∀ (l : List Nat) (off len : Nat), l.length ≤ off + len →
      binary_to_hex l off len =
        binary_to_hex l off ((l.length - off : Nat) : Int)) ∧
    (∀ (l : List Nat) (off len : Nat), l.length ≤ off + len →
      binary_to_string l off len =
        binary_to_string l off (l.length - off)) := by
  refine ⟨?_, ?_, ?_, ?_, ?_⟩
  · intro l off h
    unfold binary_to_int
    rw [pySlice_add, if_neg (by simp; omega)]
  · intro l off h
    unfold binary_to_byte
    rw [pySlice_add_one, if_neg (by simp; omega)]
  · intro l off h
    unfold binary_to_guid
    rw [pySlice_add, if_neg (by simp; omega)]
  · intro l off len h
    unfold binary_to_hex
    rw [pySlice_add, pySlice_add,
      List.take_of_length_le (by simp; omega),
      List.take_of_length_le (by simp)]
  · intro l off len h
    unfold binary_to_string
    rw [pySlice_add, pySlice_add,
      List.take_of_length_le (by simp; omega),
      List.take_of_length_le (by simp)]

/-- C4 (amended, witness): the amended statement instantiated on concrete
short buffers. -/
theorem c4_amended_accessor_behavior_witness :
    binary_to_int [1, 2] 0 4 = none ∧
    binary_to_byte [] 0 = none ∧
    binary_to_guid [1] 0 16 = none ∧
    binary_to_hex [170, 187] 0 3 = binary_to_hex [170, 187] 0 2 ∧
    binary_to_string [65] 0 2 = binary_to_string [65] 0 1 :=
  ⟨c4_amended_accessor_behavior.1 [1, 2] 0 (by decide),
   c4_amended_accessor_behavior.2.1 [] 0 (by decide),
   c4_amended_accessor_behavior.2.2.1 [1] 0 (by decide),
   c4_amended_accessor_behavior.2.2.2.1 [170, 187] 0 3 (by decide),
   c4_amended_accessor_behavior.2.2.2.2 [65] 0 2 (by decide)⟩

/-- C5: the claim says a GESB buffer with `data_length = 92`, one entry with
`error_data_length = 20` and the Firmware Error Record Reference GUID
decodes to a three-field mapping read from the payload bytes `[72, 92)`.
On `gesbBufC5` the entry header does parse to that known GUID with
`error_data_length = 20` and the registry does know it, but the whole
package decode fails: the slice the loop passes to
`get_bert_table_data_entry` is `d[72:20]` — empty — and the `globals()`
kind dispatch finds no decoder function, so no field mapping is ever
produced. -/
theorem c5_known_guid_entry_decode_fails :
    get_bert_table_data_pkg gesbBufC5 = none ∧
    pySlice (pySlice gesbBufC5 20 gesbBufC5.length) 72 20 = [] ∧
    (pyDictGet section_types "81212a9609ed499694718d729c8e69ed").map
      (fun s => s.name) = some "Firmware Error Record Reference" ∧
    (pkg_decode_data_entry (pySlice gesbBufC5 20 gesbBufC5.length)).map
      (fun e => (e.section_type, e.error_data_length)) =
      some ("81212a9609ed499694718d729c8e69ed", 20) := by
  decide

/-- C6: for every nonnegative 4-byte severity value read by the GESB
decoder, `get_severity` renders 0, 1, 2, 3 as the named severities
`Recoverable(0)`, `Fatal(1)`, `Correctable(2)`, `None(3)` and every value
at least 4 as `unknown(v)`, never failing. -/
theorem c6_severity_mapping (l : List Nat) (v : Int)
    (hread : binary_to_int l 16 4 = some v) (hv : 0 ≤ v) :
    get_severity l 16 =
      some (if v = 0 then "Recoverable(0)"
        else if v = 1 then "Fatal(1)"
        else if v = 2 then "Correctable(2)"
        else if v = 3 then "None(3)"
        else "unknown(" ++ toString v ++ ")") := by
  unfold get_severity
  rw [hread, Option.some_bind]
  by_cases h4 : v < 4
  · have hc : v = 0 ∨ v = 1 ∨ v = 2 ∨ v = 3 := by omega
    rcases hc with rfl | rfl | rfl | rfl <;> decide
  · unfold severity_render
    rw [if_neg h4, if_neg (by omega), if_neg (by omega), if_neg (by omega),
      if_neg (by omega)]

/-- C6 (witness): a GESB header whose severity word holds 7 renders as
`unknown(7)`. -/
theorem c6_severity_mapping_witness :
    get_severity gesbHdrSev7 16 = some "unknown(7)" := by
  have h := c6_severity_mapping gesbHdrSev7 7 (by decide) (by decide)
  rw [h]
  decide

/-- C7: `binary_to_guid` of a 16-byte wire GUID is exactly the canonical
string computed by the spec's independent byte-swap rule (first 4 reversed,
next 2 reversed, next 2 reversed, last 8 unchanged, then hex without
separators); the canonical strings of two wire GUIDs agree exactly when the
GUIDs agree; and the registry keys use the same canonical form — the
Firmware Error Record Reference key is the canonicalization of its wire
bytes. -/
theorem c7_guid_canonical_form :
    (∀ l : List Nat, l.length = 16 → (∀ x ∈ l, x < 256) →
      binary_to_guid l 0 16 = some (specGuidCanonical l)) ∧
    (∀ l1 l2 : List Nat, l1.length = 16 → l2.length = 16 →
      (∀ x ∈ l1, x < 256) → (∀ x ∈ l2, x < 256) →
      (specGuidCanonical l1 = specGuidCanonical l2 ↔ l1 = l2)) ∧
    specGuidCanonical ferrWireGuid = "81212a9609ed499694718d729c8e69ed" ∧
    (pyDictGet section_types (specGuidCanonical ferrWireGuid)).map
      (fun s => s.name) = some "Firmware Error Record Reference" :=
  ⟨guid_code_eq_spec, guid_canonical_inj, by decide, by decide⟩

/-- C7 (witness): decoding the Firmware Error Record Reference wire bytes
yields the registry's canonical key. -/
theorem c7_guid_canonical_form_witness :
    binary_to_guid ferrWireGuid 0 16 =
      some "81212a9609ed499694718d729c8e69ed" := by
  have h := c7_guid_canonical_form.1 ferrWireGuid (by decide) (by decide)
  rw [h, c7_guid_canonical_form.2.2.1]

set_option maxRecDepth 8192 in
/-- C8: on every buffer of at least 48 bytes, `get_bert_table` (and the
identical `Bert.__init__` decode) agrees field-for-field with decoding per
the spec's §6 fixed-offset layout table; and the spec's concrete 48-byte
scenario decodes to exactly the expected record, with the hex dump of the
first 48 bytes. -/
theorem c8_bert_header_layout :
    (∀ d : List Nat, 48 ≤ d.length → get_bert_table d = specBertDecode d) ∧
    get_bert_table bertBuf48 = some
      { header_signature := [66, 69, 82, 84], lenght := 48, revision := 1,
        checksum := 0, oem_id := [84, 69, 83, 84, 48, 48], oem_revision := 1,
        creator_id := [84, 69, 83, 84], creator_revision := 1,
        boot_error_region_length := 8,
        boot_error_region := "aa aa aa aa aa aa aa aa",
        hex := "42 45 52 54 30 00 00 00 01 00 54 45 53 54 30 30 00 00 00 00 00 00 00 00 01 00 00 00 54 45 53 54 01 00 00 00 08 00 00 00 aa aa aa aa aa aa aa aa" } := by
  constructor
  · intro d h
    unfold get_bert_table specBertDecode
    rw [spec_ascii_eq d 0 4 (by omega), spec_int_eq d 4 (by omega),
      spec_byte_eq d 8 (by omega), spec_byte_eq d 9 (by omega),
      spec_ascii_eq d 10 6 (by omega), spec_int_eq d 24 (by omega),
      spec_ascii_eq d 28 4 (by omega), spec_int_eq d 32 (by omega),
      spec_int_eq d 36 (by omega), spec_hex_eq d 40 8 (by omega),
      spec_hex_eq d 0 48 (by omega)]
    simp
  · decide

/-- C8 (witness): the refinement instantiated on the spec's 48-byte
scenario buffer. -/
theorem c8_bert_header_layout_witness :
    48 ≤ bertBuf48.length ∧
    get_bert_table bertBuf48 = specBertDecode bertBuf48 :=
  ⟨by decide, c8_bert_header_layout.1 bertBuf48 (by decide)⟩

/-- C9: the claim says an entry whose section-type GUID is absent from the
registry (here the all-zero GUID) is not a decode failure — the payload
stays an opaque hex dump and decoding continues.  In the package decoder the
registry subscription raises `KeyError` for the unknown GUID (the
`try/except` fallback to "Unknown" is commented out), so the whole decode of
`gesbBufC9` fails even though the entry itself parses (the root copy, which
never consults the registry while decoding, returns the entry). -/
theorem c9_unknown_guid_entry_decode_fails :
    get_bert_table_data_pkg gesbBufC9 = none ∧
    pyDictGet section_types "00000000000000000000000000000000" = none ∧
    (pkg_decode_data_entry (pySlice gesbBufC9 20 gesbBufC9.length)).map
      (fun e => e.section_type) =
      some "00000000000000000000000000000000" ∧
    (get_bert_table_data gesbBufC9).map
      (fun r => r.generic_error_data_entry.length) = some 1 := by
  decide

/-- C10: a negative severity word does not render as `unknown(v)`: for
-4 ≤ v ≤ -1 Python's negative list indexing selects one of the four named
severities (v = -1 yields `None(-1)`), and for v ≤ -5 the list index raises
`IndexError`, so the `GenericErrorStatusBlock` constructor fails instead of
returning a record. -/
theorem c10_negative_severity :
    (∀ (l : List Nat) (v : Int), binary_to_int l 16 4 = some v →
      -4 ≤ v → v ≤ -1 →
      get_severity l 16 = some
        (if v = -4 then "Recoverable(-4)" else if v = -3 then "Fatal(-3)"
         else if v = -2 then "Correctable(-2)" else "None(-1)")) ∧
    (∀ (l : List Nat) (v : Int), binary_to_int l 16 4 = some v → v ≤ -5 →
      generic_error_status_block l = none) := by
  constructor
  · intro l v hread h1 h2
    unfold get_severity
    rw [hread, Option.some_bind]
    have hc : v = -4 ∨ v = -3 ∨ v = -2 ∨ v = -1 := by omega
    rcases hc with rfl | rfl | rfl | rfl <;> decide
  · intro l v hread h5
    have hsev : get_severity l 16 = none := by
      unfold get_severity
      rw [hread, Option.some_bind]
      unfold severity_render pyListIndex
      rw [if_pos (by omega), if_neg (by omega),
        if_neg (by simp [severity_text]; omega)]
      rfl
    unfold generic_error_status_block
    rcases h8 : binary_to_int l 8 4 with _ | rdl
    · rfl
    · rcases h12 : binary_to_int l 12 4 with _ | dl
      · rfl
      · simp [hsev]

/-- C10 (witness): severity word -1 renders as `None(-1)`; severity word -5
makes the block constructor fail. -/
theorem c10_negative_severity_witness :
    get_severity gesbHdrSevNeg1 16 = some "None(-1)" ∧
    generic_error_status_block gesbHdrSevNeg5 = none := by
  constructor
  · have h := c10_negative_severity.1 gesbHdrSevNeg1 (-1) (by decide)
      (by decide) (by decide)
    rw [h]
    decide
  · exact c10_negative_severity.2 gesbHdrSevNeg5 (-5) (by decide) (by decide)
